import Mathlib

/-!
Verification of the Style2Vec sample-generation and training pipeline
(style2vec/models/style2vecbeta.py) against its natural-language
specification.

The Python module is shallowly embedded:
* items are identified with natural numbers (the dataset's item records are
  dicts; Python dict equality is modelled by equality of these identifiers);
* an outfit is a record with a SetId and an ordered item list, mirroring the
  JSON records the script loads;
* randomness (random.randrange, random.choice, random.shuffle) is modelled by
  an explicit stream of natural numbers: a call consuming the next stream
  value v and needing a uniform draw from [0, n) yields v % n.  Properties
  proved for every stream in particular cover every actual random execution;
  random.shuffle is modelled by an arbitrary function hypothesised to be a
  permutation;
* Python exceptions are modelled with an Except monad; the unbounded
  while-retry loop of the negative sampler gets an explicit fuel budget, with
  a distinguished "stuck" outcome for fuel exhaustion (nontermination);
* file and tensor I/O (json loading, image preprocessing, TensorFlow calls)
  is not executed: the loaded dataset is a parameter, and the module-level
  training script is modelled by the list of filesystem/console effects it
  performs.
-/

namespace Style2VecBeta

/-- Dataset item, identified by a code standing for its JSON record.
Python compares items with dict equality (line 66, item != context); distinct
records are modelled by distinct codes. -/
abbrev Item := Nat

/-- Outfit record of the dataset JSON: a numeric SetId and the item list. -/
structure Outfit where
  SetId : Nat
  Items : List Item
deriving DecidableEq, Inhabited

/-- One generated sample: an (item, context) couple and a 0/1 label. -/
abbrev Sample := (Item × Item) × Nat

/-- Python exceptions that the embedded code can raise.
invalidModel models ValueError("Invalid underlying model") (line 41);
emptyRange models ValueError("empty range for randrange()") raised by
random.randrange(0); indexError models the IndexError of random.choice on an
empty sequence; zeroDivision models ZeroDivisionError (line 80 when
batch_size is 0); stuck is not a Python exception: it marks exhaustion of the
fuel that bounds the while-retry loop of line 70, i.e. nontermination;
insufficientData is the InsufficientDataError named by the specification's
error taxonomy - no code path of the module produces it. -/
inductive PyError where
  | invalidModel
  | emptyRange
  | indexError
  | zeroDivision
  | stuck
  | insufficientData
deriving DecidableEq

/-- State of the random module: a stream of draws and the current position. -/
structure Rng where
  stream : Nat → Nat
  pos : Nat

/-- Value consumed by the next random call. -/
def Rng.next (r : Rng) : Nat := r.stream r.pos

/-- Random state after one call. -/
def Rng.advance (r : Rng) : Rng := ⟨r.stream, r.pos + 1⟩

/-- random.randrange(n): a uniform draw from [0, n), modelled as the next
stream value reduced mod n; raises ValueError on an empty range. -/
def randrange (n : Nat) (r : Rng) : Except PyError (Nat × Rng) :=
  if n = 0 then .error .emptyRange else .ok (r.next % n, r.advance)

/-- random.choice(l): a uniformly chosen element of l, modelled via the next
stream value; IndexError on an empty sequence. -/
def choice (l : List Item) (r : Rng) : Except PyError (Item × Rng) :=
  if l.isEmpty then .error .indexError
  else .ok (l.getD (r.next % l.length) 0, r.advance)

/-- Lines 70-73: while True: draw neg_outfit_index = randrange(len(data)-1),
break when it differs from outfit["SetId"].  Note the source compares the
drawn list INDEX with the outfit's SetId field.  The fuel argument bounds the
retries; running out of fuel returns the stuck marker. -/
def drawNegOutfit (dataLen : Nat) (setId : Nat) : Nat → Rng → Except PyError (Nat × Rng)
  | 0, _ => .error .stuck
  | fuel + 1, r =>
    match randrange (dataLen - 1) r with
    | .error e => .error e
    | .ok (i, r1) => if i ≠ setId then .ok (i, r1) else drawNegOutfit dataLen setId fuel r1

/-- Lines 69-75: the negative-sample loop for one item: count draws, each
picking an outfit index via drawNegOutfit and then a random item of that
outfit, appending ((item, neg_item), 0). -/
def negSamples (fuel : Nat) (data : List Outfit) (setId : Nat) (item : Item) :
    Nat → Rng → Except PyError (List Sample × Rng)
  | 0, r => .ok ([], r)
  | count + 1, r =>
    match drawNegOutfit data.length setId fuel r with
    | .error e => .error e
    | .ok (i, r1) =>
      match choice (data.getD i default).Items r1 with
      | .error e => .error e
      | .ok (negItem, r2) =>
        match negSamples fuel data setId item count r2 with
        | .error e => .error e
        | .ok (rest, r3) => .ok (((item, negItem), 0) :: rest, r3)

/-- Lines 64-67: positive samples of one item: one ((item, context), 1) per
context in the same outfit with item != context, in item-list order. -/
def posSamples (outfit : Outfit) (item : Item) : List Sample :=
  (outfit.Items.filter (fun context => item != context)).map (fun context => ((item, context), 1))

/-- Lines 63-75, body for a single item: positives then negatives. -/
def itemSamples (fuel negCount : Nat) (data : List Outfit) (outfit : Outfit) (item : Item)
    (r : Rng) : Except PyError (List Sample × Rng) :=
  match negSamples fuel data outfit.SetId item negCount r with
  | .error e => .error e
  | .ok (negs, r1) => .ok (posSamples outfit item ++ negs, r1)

/-- Line 63: loop over the items of one outfit. -/
def itemsLoop (fuel negCount : Nat) (data : List Outfit) (outfit : Outfit) :
    List Item → Rng → Except PyError (List Sample × Rng)
  | [], r => .ok ([], r)
  | it :: rest, r =>
    match itemSamples fuel negCount data outfit it r with
    | .error e => .error e
    | .ok (s1, r1) =>
      match itemsLoop fuel negCount data outfit rest r1 with
      | .error e => .error e
      | .ok (s2, r2) => .ok (s1 ++ s2, r2)

/-- Line 62: loop over all outfits of the dataset. -/
def outfitsLoop (fuel negCount : Nat) (data : List Outfit) :
    List Outfit → Rng → Except PyError (List Sample × Rng)
  | [], r => .ok ([], r)
  | o :: rest, r =>
    match itemsLoop fuel negCount data o o.Items r with
    | .error e => .error e
    | .ok (s1, r1) =>
      match outfitsLoop fuel negCount data rest r1 with
      | .error e => .error e
      | .ok (s2, r2) => .ok (s1 ++ s2, r2)

/-- Python slice xs[:k] for an int k (negative k counts from the end). -/
def pySliceTo {α : Type} (k : Int) (xs : List α) : List α :=
  if 0 ≤ k then xs.take k.toNat else xs.take (xs.length - (-k).toNat)

/-- Lines 53-84, generate_samples: build all samples, shuffle (the sh
argument, hypothesised to be a permutation where needed), truncate to
samples_count_limit when set and smaller, and compute
steps_per_epoch = floor(len(samples) / batch_size) (line 80).  Returns the
final sample list together with steps_per_epoch. -/
def generate_samples (fuel negCount batch_size : Nat) (samples_count_limit : Int)
    (data : List Outfit) (r : Rng) (sh : List Sample → List Sample) :
    Except PyError (List Sample × Nat) :=
  match outfitsLoop fuel negCount data data r with
  | .error e => .error e
  | .ok (raw, _) =>
    let shuffled := sh raw
    let samples :=
      if samples_count_limit ≠ -1 ∧ samples_count_limit < (shuffled.length : Int) then
        pySliceTo samples_count_limit shuffled
      else shuffled
    if batch_size = 0 then .error .zeroDivision
    else .ok (samples, samples.length / batch_size)

/-- Lines 47-50, collect_data: the loaded JSON list, truncated to the first
outfits_count_limit outfits when the limit is set (not -1) and smaller than
the dataset. -/
def collect_data (outfits_count_limit : Int) (loaded : List Outfit) : List Outfit :=
  if outfits_count_limit ≠ -1 ∧ outfits_count_limit < (loaded.length : Int) then
    pySliceTo outfits_count_limit loaded
  else loaded

/-- Lines 99-112, the inner for-loop of generate_batches, on one generated
sample list: accumulate samples while current_size < batch_size; otherwise
yield the accumulated batch and reset the accumulator (the sample at the
triggering index is not appended anywhere).  After the loop a nonempty
accumulator is yielded as a final batch.  Batches are modelled as lists of
samples; prep_item (pure per-item image preprocessing, applied positionally
to both couple components and leaving labels paired) does not affect batch
structure and is not modelled. -/
def batchStep (batch_size : Nat) : List Sample → List Sample → Nat → List (List Sample)
  | [], acc, current_size => if 0 < current_size then [acc.reverse] else []
  | s :: rest, acc, current_size =>
    if current_size < batch_size then batchStep batch_size rest (s :: acc) (current_size + 1)
    else acc.reverse :: batchStep batch_size rest [] 0

/-- One epoch pass of generate_batches over a fixed generated sample list. -/
def epochBatches (batch_size : Nat) (samples : List Sample) : List (List Sample) :=
  batchStep batch_size samples [] 0

/-- Lines 18-41, SamplesGenerator.__init__ configuration state. -/
structure SamplesGenerator where
  outfits_count_limit : Int
  samples_count_limit : Int
  batch_size : Nat
  neg_sample_count : Nat
  images_path : String
  dataset_path : String
  underlying_model : String
deriving DecidableEq

/-- SamplesGenerator.__init__: stores the configuration and raises
ValueError("Invalid underlying model") when underlying_model is not
"inception" (lines 40-41).  No file is touched: collect_data is a separate,
later call. -/
def SamplesGenerator.init (dataset_path images_path : String) (neg_sample_count batch_size : Nat)
    (underlying_model : String) (outfits_count_limit samples_count_limit : Int) :
    Except PyError SamplesGenerator :=
  if underlying_model != "inception" then .error .invalidModel
  else .ok
    { outfits_count_limit := outfits_count_limit
      samples_count_limit := samples_count_limit
      batch_size := batch_size
      neg_sample_count := neg_sample_count
      images_path := images_path
      dataset_path := dataset_path
      underlying_model := underlying_model }

/-- One Keras layer of a tower, reduced to the fields the module touches:
its name and its trainable flag. -/
structure Layer where
  name : String
  trainable : Bool
deriving DecidableEq, Inhabited

/-- Lines 174-181: rename the layers of one tower to role0, role1, ... with
the final layer named role + "last_layer". -/
def renameTower (role : String) (layers : List Layer) : List Layer :=
  layers.mapIdx (fun i l =>
    if i = layers.length - 1 then { l with name := role ++ "last_layer" }
    else { l with name := role ++ toString i })

/-- Lines 183-192, the fine-tuning block applied to one tower: the first 249
layers become non-trainable, the layers from index 249 on become trainable. -/
def applyFineTune (layers : List Layer) : List Layer :=
  (layers.take 249).map (fun l => { l with trainable := false })
    ++ (layers.drop 249).map (fun l => { l with trainable := true })

/-- The two pretrained towers of the dual-encoder model. -/
structure Towers where
  model_target : List Layer
  model_context : List Layer
deriving DecidableEq

/-- Lines 183-192: when the fine-tune flag is set, apply the freeze/unfreeze
split to both towers; when it is not set, the block is skipped and every
layer keeps the trainable flag it was constructed with. -/
def fineTuneStep (fine_tune : Bool) (t : Towers) : Towers :=
  if fine_tune then
    { model_target := applyFineTune t.model_target
      model_context := applyFineTune t.model_context }
  else t

/-- Style2Vec wrapper state (the parts of lines 131-215 that are pure):
the renamed, possibly fine-tuned towers and the samples generator. -/
structure Style2Vec where
  towers : Towers
  epochs_count : Nat
  generator : SamplesGenerator
deriving DecidableEq

/-- Lines 131-215, Style2Vec.__init__: builds and renames the two towers,
applies the fine-tune block, and constructs the internal SamplesGenerator
(lines 208-214).  The underlying_model parameter of the wrapper is accepted
but never consulted: the generator is constructed without passing it, so the
generator always receives the default "inception" and no validation of the
wrapper's selector ever happens.  Tensor graph construction and compilation
are TensorFlow side effects outside the embedding. -/
def Style2Vec.init (dataset_path images_path : String) (batch_size epochs_count : Nat)
    (underlying_model : String) (outfits_count_limit samples_count_limit : Int)
    (fine_tune : Bool) (pretrained : Towers) : Except PyError Style2Vec :=
  let renamed : Towers :=
    { model_target := renameTower "target_" pretrained.model_target
      model_context := renameTower "context_" pretrained.model_context }
  let tuned := fineTuneStep fine_tune renamed
  match SamplesGenerator.init dataset_path images_path 5 batch_size "inception"
      outfits_count_limit samples_count_limit with
  | .error e => .error e
  | .ok g => .ok { towers := tuned, epochs_count := epochs_count, generator := g }

/-- Filesystem/console effects of the module-level training script. -/
inductive Effect where
  | saveModel (path : String)
  | writeFile (path contents : String)
  | printMsg (msg : String)
deriving DecidableEq

/-- Lines 275-288, the module-level try/except around the training run,
modelled as the effect trace the script performs after model.fit returns
normally (.ok) or raises (.error with the exception's message).  On success:
save the final model, write the meta note with the elapsed time, print the
completion message.  On any exception: save the model under the _err-tagged
name, write the exception message to the err text file, print the failure
message.  The except block does not re-raise, so in both branches the script
then falls off the end of the file. -/
def trainingScript (date elapsed : String) (fitOutcome : Except String Unit) : List Effect :=
  match fitOutcome with
  | .ok _ =>
    [ .saveModel ("logs/" ++ date ++ "/" ++ "model" ++ date ++ ".h5"),
      .writeFile ("logs/" ++ date ++ "/meta.txt")
        ("batch 24, limit -1, adam, e 5, fine tune, neg 6\n" ++ elapsed),
      .printMsg "Succesfully finished." ]
  | .error e =>
    [ .saveModel ("model" ++ date ++ "_err.h5"),
      .writeFile ("err" ++ date ++ ".txt") e,
      .printMsg "Exited with error." ]

/-- All items of a list of outfits, in order. -/
def allItems : List Outfit → List Item
  | [] => []
  | o :: rest => o.Items ++ allItems rest

theorem allItems_append (xs ys : List Outfit) :
    allItems (xs ++ ys) = allItems xs ++ allItems ys := by
  induction xs with
  | nil => simp [allItems]
  | cons o rest ih => simp [allItems, ih]

theorem mem_allItems {x : Item} {o : Outfit} {os : List Outfit} (ho : o ∈ os)
    (hx : x ∈ o.Items) : x ∈ allItems os := by
  induction os with
  | nil => cases ho
  | cons o' rest ih =>
    rw [allItems, List.mem_append]
    rcases List.mem_cons.mp ho with h | h
    · exact Or.inl (h ▸ hx)
    · exact Or.inr (ih h)

/-- A sample counts as a positive of outfit o when its label is 1 and its
target item is one of o's items. -/
def isPosOf (o : Outfit) (s : Sample) : Bool := s.2 == 1 && o.Items.contains s.1.1

/-- A sample counts as a negative of outfit o when its label is 0 and its
target item is one of o's items. -/
def isNegOf (o : Outfit) (s : Sample) : Bool := s.2 == 0 && o.Items.contains s.1.1

theorem length_filter_bne (l : List Item) (a : Item) (hnd : l.Nodup) (ha : a ∈ l) :
    (l.filter (fun c => a != c)).length = l.length - 1 := by
  induction l with
  | nil => cases ha
  | cons x rest ih =>
    have hx : x ∉ rest := (List.nodup_cons.mp hnd).1
    have hrest : rest.Nodup := (List.nodup_cons.mp hnd).2
    rcases List.mem_cons.mp ha with h | h
    · subst h
      rw [List.filter_cons, if_neg (by simp)]
      rw [List.filter_eq_self.mpr (fun c hc => by
        rw [bne_iff_ne]
        exact fun hac => hx (by rw [hac]; exact hc))]
      simp
    · have hax : a ≠ x := fun hax => hx (hax ▸ h)
      rw [List.filter_cons, if_pos (bne_iff_ne.mpr hax)]
      have hpos : 0 < rest.length := List.length_pos.mpr (List.ne_nil_of_mem h)
      rw [List.length_cons, List.length_cons, ih hrest h]
      omega

theorem posSamples_mem (o : Outfit) (it : Item) :
    ∀ s ∈ posSamples o it, s.2 = 1 ∧ s.1.1 = it := by
  intro s hs
  rw [posSamples, List.mem_map] at hs
  obtain ⟨c, _, rfl⟩ := hs
  exact ⟨rfl, rfl⟩

theorem posSamples_length (o : Outfit) (it : Item) (hnd : o.Items.Nodup)
    (hin : it ∈ o.Items) : (posSamples o it).length = o.Items.length - 1 := by
  rw [posSamples, List.length_map]
  exact length_filter_bne o.Items it hnd hin

theorem drawNegOutfit_lt (dataLen setId : Nat) :
    ∀ (fuel : Nat) (r : Rng) (i : Nat) (r' : Rng),
      drawNegOutfit dataLen setId fuel r = .ok (i, r') → i < dataLen - 1 := by
  intro fuel
  induction fuel with
  | zero => intro r i r' h; exact absurd h (by simp [drawNegOutfit])
  | succ n ih =>
    intro r i r' h
    rw [drawNegOutfit, randrange] at h
    by_cases hz : dataLen - 1 = 0
    · rw [if_pos hz] at h
      exact absurd h (by simp)
    · rw [if_neg hz] at h
      simp only at h
      by_cases hne : r.next % (dataLen - 1) ≠ setId
      · rw [if_pos hne] at h
        have := Nat.mod_lt r.next (Nat.pos_of_ne_zero hz)
        cases h
        exact this
      · rw [if_neg hne] at h
        exact ih r.advance i r' h

theorem choice_mem (l : List Item) (r : Rng) (x : Item) (r' : Rng)
    (h : choice l r = .ok (x, r')) : x ∈ l := by
  rw [choice] at h
  by_cases he : l.isEmpty
  · rw [if_pos he] at h
    exact absurd h (by simp)
  · rw [if_neg he] at h
    cases h
    have hne : l ≠ [] := fun hnil => he (by simp [hnil])
    have hlen : 0 < l.length := List.length_pos.mpr hne
    have hlt : r.next % l.length < l.length := Nat.mod_lt r.next hlen
    rw [List.getD_eq_getElem l 0 hlt]
    exact List.getElem_mem hlt

theorem mem_allItems_of_getD (data : List Outfit) (i : Nat) (hi : i < data.length - 1)
    (x : Item) (hx : x ∈ (data.getD i default).Items) : x ∈ allItems data.dropLast := by
  have hlen : i < data.dropLast.length := by rw [List.length_dropLast]; omega
  have hdl : i < data.length := by omega
  rw [List.getD_eq_getElem data default hdl] at hx
  have heq : data.dropLast[i] = data[i] := List.getElem_dropLast ..
  exact mem_allItems (heq ▸ List.getElem_mem hlen) hx

theorem negSamples_ok (fuel : Nat) (data : List Outfit) (setId : Nat) (item : Item) :
    ∀ (count : Nat) (r : Rng) (l : List Sample) (r' : Rng),
      negSamples fuel data setId item count r = .ok (l, r') →
      l.length = count
      ∧ ∀ s ∈ l, s.2 = 0 ∧ s.1.1 = item ∧ s.1.2 ∈ allItems data.dropLast := by
  intro count
  induction count with
  | zero =>
    intro r l r' h
    rw [negSamples] at h
    cases h
    exact ⟨rfl, by simp⟩
  | succ n ih =>
    intro r l r' h
    rw [negSamples] at h
    split at h
    · exact absurd h (by simp)
    next i r1 h1 =>
      split at h
      · exact absurd h (by simp)
      next negItem r2 h2 =>
        split at h
        · exact absurd h (by simp)
        next restl r3 h3 =>
          cases h
          obtain ⟨hlen, hall⟩ := ih _ _ _ h3
          refine ⟨by simp [hlen], ?_⟩
          intro s hs
          rcases List.mem_cons.mp hs with hhd | htl
          · subst hhd
            refine ⟨rfl, rfl, ?_⟩
            exact mem_allItems_of_getD data i (drawNegOutfit_lt _ _ _ _ _ _ h1)
              negItem (choice_mem _ _ _ _ h2)
          · exact hall s htl

theorem itemSamples_ok (fuel negCount : Nat) (data : List Outfit) (o : Outfit) (it : Item)
    (r : Rng) (l : List Sample) (r' : Rng)
    (h : itemSamples fuel negCount data o it r = .ok (l, r')) :
    ∃ negs, negSamples fuel data o.SetId it negCount r = .ok (negs, r')
      ∧ l = posSamples o it ++ negs := by
  rw [itemSamples] at h
  split at h
  · exact absurd h (by simp)
  next negs r1 h1 =>
    cases h
    exact ⟨negs, h1, rfl⟩

theorem itemsLoop_counts (fuel negCount : Nat) (data : List Outfit) (o : Outfit)
    (hnd : o.Items.Nodup) :
    ∀ (items : List Item) (r : Rng) (l : List Sample) (r' : Rng),
      itemsLoop fuel negCount data o items r = .ok (l, r') →
      (∀ it ∈ items, it ∈ o.Items) →
      l.countP (isPosOf o) = items.length * (o.Items.length - 1)
      ∧ l.countP (isNegOf o) = items.length * negCount := by
  intro items
  induction items with
  | nil =>
    intro r l r' h _
    rw [itemsLoop] at h
    cases h
    simp
  | cons it rest ih =>
    intro r l r' h hsub
    rw [itemsLoop] at h
    split at h
    · exact absurd h (by simp)
    next s1 r1 h1 =>
      split at h
      · exact absurd h (by simp)
      next s2 r2 h2 =>
        cases h
        obtain ⟨negs, hneg, hs1⟩ := itemSamples_ok _ _ _ _ _ _ _ _ h1
        obtain ⟨hnlen, hnall⟩ := negSamples_ok _ _ _ _ _ _ _ _ hneg
        have hit : it ∈ o.Items := hsub it (List.mem_cons_self it rest)
        obtain ⟨hp2, hn2⟩ := ih _ _ _ h2 (fun x hx => hsub x (List.mem_cons_of_mem it hx))
        subst hs1
        have hpos : (posSamples o it).countP (isPosOf o) = (posSamples o it).length := by
          rw [List.countP_eq_length]
          intro s hs
          obtain ⟨hl1, ht1⟩ := posSamples_mem o it s hs
          simp [isPosOf, hl1, ht1, hit]
        have hnegA : negs.countP (isPosOf o) = 0 := by
          rw [List.countP_eq_zero]
          intro s hs
          simp [isPosOf, (hnall s hs).1]
        have hposB : (posSamples o it).countP (isNegOf o) = 0 := by
          rw [List.countP_eq_zero]
          intro s hs
          simp [isNegOf, (posSamples_mem o it s hs).1]
        have hnegB : negs.countP (isNegOf o) = negs.length := by
          rw [List.countP_eq_length]
          intro s hs
          obtain ⟨hl0, ht0, _⟩ := hnall s hs
          simp [isNegOf, hl0, ht0, hit]
        constructor
        · rw [List.countP_append, List.countP_append, hpos, hnegA,
            posSamples_length o it hnd hit, hp2, List.length_cons]
          ring
        · rw [List.countP_append, List.countP_append, hposB, hnegB, hnlen, hn2,
            List.length_cons]
          ring

theorem itemsLoop_targets (fuel negCount : Nat) (data : List Outfit) (o : Outfit) :
    ∀ (items : List Item) (r : Rng) (l : List Sample) (r' : Rng),
      itemsLoop fuel negCount data o items r = .ok (l, r') →
      ∀ s ∈ l, s.1.1 ∈ items := by
  intro items
  induction items with
  | nil =>
    intro r l r' h s hs
    rw [itemsLoop] at h
    cases h
    cases hs
  | cons it rest ih =>
    intro r l r' h s hs
    rw [itemsLoop] at h
    split at h
    · exact absurd h (by simp)
    next s1 r1 h1 =>
      split at h
      · exact absurd h (by simp)
      next s2 r2 h2 =>
        cases h
        rcases List.mem_append.mp hs with h' | h'
        · obtain ⟨negs, hneg, hs1⟩ := itemSamples_ok _ _ _ _ _ _ _ _ h1
          subst hs1
          rcases List.mem_append.mp h' with hp | hn
          · rw [(posSamples_mem o it s hp).2]
            exact List.mem_cons_self it rest
          · rw [((negSamples_ok _ _ _ _ _ _ _ _ hneg).2 s hn).2.1]
            exact List.mem_cons_self it rest
        · exact List.mem_cons_of_mem it (ih _ _ _ h2 s h')

theorem itemsLoop_negContext (fuel negCount : Nat) (data : List Outfit) (o : Outfit) :
    ∀ (items : List Item) (r : Rng) (l : List Sample) (r' : Rng),
      itemsLoop fuel negCount data o items r = .ok (l, r') →
      ∀ s ∈ l, s.2 = 0 → s.1.2 ∈ allItems data.dropLast := by
  intro items
  induction items with
  | nil =>
    intro r l r' h s hs
    rw [itemsLoop] at h
    cases h
    cases hs
  | cons it rest ih =>
    intro r l r' h s hs hz
    rw [itemsLoop] at h
    split at h
    · exact absurd h (by simp)
    next s1 r1 h1 =>
      split at h
      · exact absurd h (by simp)
      next s2 r2 h2 =>
        cases h
        rcases List.mem_append.mp hs with h' | h'
        · obtain ⟨negs, hneg, hs1⟩ := itemSamples_ok _ _ _ _ _ _ _ _ h1
          subst hs1
          rcases List.mem_append.mp h' with hp | hn
          · have := (posSamples_mem o it s hp).1
            omega
          · exact ((negSamples_ok _ _ _ _ _ _ _ _ hneg).2 s hn).2.2
        · exact ih _ _ _ h2 s h' hz

theorem outfitsLoop_append (fuel negCount : Nat) (data : List Outfit) :
    ∀ (xs ys : List Outfit) (r : Rng) (l : List Sample) (r' : Rng),
      outfitsLoop fuel negCount data (xs ++ ys) r = .ok (l, r') →
      ∃ l1 rm l2, outfitsLoop fuel negCount data xs r = .ok (l1, rm)
        ∧ outfitsLoop fuel negCount data ys rm = .ok (l2, r') ∧ l = l1 ++ l2 := by
  intro xs
  induction xs with
  | nil =>
    intro ys r l r' h
    exact ⟨[], r, l, rfl, h, rfl⟩
  | cons o xs ih =>
    intro ys r l r' h
    rw [List.cons_append, outfitsLoop] at h
    split at h
    · exact absurd h (by simp)
    next s1 r1 h1 =>
      split at h
      · exact absurd h (by simp)
      next s2 r2 h2 =>
        cases h
        obtain ⟨l1, rm, l2, hx, hy, hl⟩ := ih _ _ _ _ h2
        refine ⟨s1 ++ l1, rm, l2, ?_, hy, by rw [hl, List.append_assoc]⟩
        simp [outfitsLoop, h1, hx]

theorem outfitsLoop_targets (fuel negCount : Nat) (data : List Outfit) :
    ∀ (os : List Outfit) (r : Rng) (l : List Sample) (r' : Rng),
      outfitsLoop fuel negCount data os r = .ok (l, r') →
      ∀ s ∈ l, s.1.1 ∈ allItems os := by
  intro os
  induction os with
  | nil =>
    intro r l r' h s hs
    rw [outfitsLoop] at h
    cases h
    cases hs
  | cons o rest ih =>
    intro r l r' h s hs
    rw [outfitsLoop] at h
    split at h
    · exact absurd h (by simp)
    next s1 r1 h1 =>
      split at h
      · exact absurd h (by simp)
      next s2 r2 h2 =>
        cases h
        rw [allItems, List.mem_append]
        rcases List.mem_append.mp hs with h' | h'
        · exact Or.inl (itemsLoop_targets _ _ _ _ _ _ _ _ h1 s h')
        · exact Or.inr (ih _ _ _ h2 s h')

theorem outfitsLoop_negContext (fuel negCount : Nat) (data : List Outfit) :
    ∀ (os : List Outfit) (r : Rng) (l : List Sample) (r' : Rng),
      outfitsLoop fuel negCount data os r = .ok (l, r') →
      ∀ s ∈ l, s.2 = 0 → s.1.2 ∈ allItems data.dropLast := by
  intro os
  induction os with
  | nil =>
    intro r l r' h s hs
    rw [outfitsLoop] at h
    cases h
    cases hs
  | cons o rest ih =>
    intro r l r' h s hs hz
    rw [outfitsLoop] at h
    split at h
    · exact absurd h (by simp)
    next s1 r1 h1 =>
      split at h
      · exact absurd h (by simp)
      next s2 r2 h2 =>
        cases h
        rcases List.mem_append.mp hs with h' | h'
        · exact itemsLoop_negContext _ _ _ _ _ _ _ _ h1 s h' hz
        · exact ih _ _ _ h2 s h' hz

theorem generate_samples_ok (fuel negCount batch_size : Nat) (lim : Int)
    (data : List Outfit) (r : Rng) (sh : List Sample → List Sample) (L : List Sample)
    (steps : Nat)
    (hok : generate_samples fuel negCount batch_size lim data r sh = .ok (L, steps)) :
    ∃ raw rr, outfitsLoop fuel negCount data data r = .ok (raw, rr)
      ∧ L = (if lim ≠ -1 ∧ lim < ((sh raw).length : Int) then pySliceTo lim (sh raw)
            else sh raw) := by
  rw [generate_samples.eq_def] at hok
  split at hok
  · exact absurd hok (by simp)
  next raw rr h1 =>
    refine ⟨raw, rr, h1, ?_⟩
    by_cases hb : batch_size = 0
    · rw [if_pos hb] at hok
      exact absurd hok (by simp)
    · rw [if_neg hb] at hok
      by_cases hc : lim ≠ -1 ∧ lim < ((sh raw).length : Int)
      · rw [if_pos hc] at hok
        rw [if_pos hc]
        cases hok
        rfl
      · rw [if_neg hc] at hok
        rw [if_neg hc]
        cases hok
        rfl

theorem pySliceTo_subset {α : Type} (k : Int) (xs : List α) (x : α)
    (h : x ∈ pySliceTo k xs) : x ∈ xs := by
  rw [pySliceTo] at h
  split at h
  · exact (List.take_sublist _ _).subset h
  · exact (List.take_sublist _ _).subset h

theorem dropLast_append_getLastD (l : List Outfit) (hne : l ≠ []) :
    l.dropLast ++ [l.getLastD default] = l := by
  cases l with
  | nil => exact absurd rfl hne
  | cons x xs =>
    rw [List.getLastD_cons, ← List.getLast_eq_getLastD x xs hne]
    exact List.dropLast_append_getLast hne

/-- Specification of which samples survive one epoch pass of the batching
loop: keep a sample while the running counter is below batch_size, and at
counter = batch_size drop the sample and reset the counter. -/
def dropPattern (batch_size : Nat) : Nat → List Sample → List Sample
  | _, [] => []
  | cur, s :: rest =>
    if cur < batch_size then s :: dropPattern batch_size (cur + 1) rest
    else dropPattern batch_size 0 rest

theorem batchStep_join (b : Nat) (s : List Sample) :
    ∀ (acc : List Sample) (cur : Nat), (cur = 0 → acc = []) →
      (batchStep b s acc cur).flatten = acc.reverse ++ dropPattern b cur s := by
  induction s with
  | nil =>
    intro acc cur hinv
    by_cases hc : 0 < cur
    · simp [batchStep, dropPattern, hc]
    · have hcur : cur = 0 := by omega
      simp [batchStep, dropPattern, hcur, hinv hcur]
  | cons x rest ih =>
    intro acc cur hinv
    by_cases hc : cur < b
    · rw [batchStep, if_pos hc, dropPattern, if_pos hc]
      rw [ih (x :: acc) (cur + 1) (by omega)]
      simp
    · rw [batchStep, if_neg hc, dropPattern, if_neg hc]
      simp only [List.flatten_cons]
      rw [ih [] 0 (fun _ => rfl)]
      simp

theorem dropPattern_length_le (b : Nat) (s : List Sample) :
    ∀ cur, (dropPattern b cur s).length ≤ s.length := by
  induction s with
  | nil => intro cur; simp [dropPattern]
  | cons x rest ih =>
    intro cur
    by_cases hc : cur < b
    · rw [dropPattern, if_pos hc]
      have := ih (cur + 1)
      simp only [List.length_cons]
      omega
    · rw [dropPattern, if_neg hc]
      have := ih 0
      simp only [List.length_cons]
      omega

theorem dropPattern_length_lt (b : Nat) (s : List Sample) :
    ∀ cur, cur ≤ b → b + 1 ≤ cur + s.length →
      (dropPattern b cur s).length < s.length := by
  induction s with
  | nil => intro cur hcb hlen; simp at hlen; omega
  | cons x rest ih =>
    intro cur hcb hlen
    by_cases hc : cur < b
    · rw [dropPattern, if_pos hc]
      have hrest : (dropPattern b (cur + 1) rest).length < rest.length := by
        apply ih (cur + 1) (by omega)
        simp only [List.length_cons] at hlen
        omega
      simp only [List.length_cons]
      omega
    · rw [dropPattern, if_neg hc]
      have := dropPattern_length_le b rest 0
      simp only [List.length_cons]
      omega

/-!  Claim theorems. -/

/-- C1 (counter-evidence): generate_samples can emit a negative sample whose
context item comes from the very outfit the target item belongs to.  Line 72
compares the drawn outfit INDEX with the outfit's SetId field, so with the
three-outfit dataset whose SetIds are 7, 8, 9 (none equal to a list index
that can be drawn) the first draw 0 is accepted for every outfit, and the
single item 10 of the first outfit (SetId 7) receives itself as its negative
context: the sample ((10, 10), 0) is produced, target and context both from
the outfit with SetId 7. -/
theorem c1_negative_from_same_outfit :
    generate_samples 1 1 10 (-1) [⟨7, [10]⟩, ⟨8, [20]⟩, ⟨9, [30]⟩] ⟨fun _ => 0, 0⟩ id
      = .ok ([((10, 10), 0), ((20, 10), 0), ((30, 10), 0)], 0)
    ∧ ((10, 10), 0) ∈ ([((10, 10), 0), ((20, 10), 0), ((30, 10), 0)] : List Sample)
    ∧ (10 : Item) ∈ (Outfit.mk 7 [10]).Items := by
  exact ⟨rfl, by decide, by decide⟩

/-- C2 (counter-evidence): a one-outfit dataset with three items and no
negative sampling yields six samples, so line 80 sets steps_per_epoch to
6 / 2 = 3 for batch_size 2; yet one epoch pass of generate_batches yields
only two batches, because each full-batch yield drops the triggering sample
(here the third and the sixth sample). -/
theorem c2_epoch_yields_fewer_batches_than_steps :
    generate_samples 1 0 2 (-1) [⟨1, [1, 2, 3]⟩] ⟨fun _ => 0, 0⟩ id
      = .ok ([((1, 2), 1), ((1, 3), 1), ((2, 1), 1), ((2, 3), 1), ((3, 1), 1), ((3, 2), 1)], 3)
    ∧ epochBatches 2
        [((1, 2), 1), ((1, 3), 1), ((2, 1), 1), ((2, 3), 1), ((3, 1), 1), ((3, 2), 1)]
        = [[((1, 2), 1), ((1, 3), 1)], [((2, 3), 1), ((3, 1), 1)]]
    ∧ (epochBatches 2
        [((1, 2), 1), ((1, 3), 1), ((2, 1), 1), ((2, 3), 1), ((3, 1), 1), ((3, 2), 1)]).length
        = 2 := by
  exact ⟨rfl, rfl, rfl⟩

/-- C4 (counterexample to the stated error kind): on a dataset with exactly
one outfit and negative sampling requested, generate_samples fails with the
ValueError raised by random.randrange on the empty range len(data) - 1 = 0;
no path produces the specification's dedicated InsufficientDataError. -/
theorem c4_raises_value_error_not_insufficient_data :
    generate_samples 1 1 10 (-1) [⟨0, [5]⟩] ⟨fun _ => 0, 0⟩ id = .error .emptyRange
    ∧ PyError.emptyRange ≠ PyError.insufficientData := by
  exact ⟨rfl, by decide⟩

/-- C4 (amended): for every dataset holding exactly one outfit with at least
one item, every positive negative-sample count, every batch size, every
sample limit, every random stream and every retry budget, generate_samples
fails immediately with the empty-range ValueError of the very first negative
draw - a fail-fast error, not an infinite retry loop. -/
theorem c4_single_outfit_fail_fast (fuel negc batch_size : Nat) (lim : Int) (sid : Nat)
    (it : Item) (rest : List Item) (r : Rng) (sh : List Sample → List Sample) :
    generate_samples (fuel + 1) (negc + 1) batch_size lim [⟨sid, it :: rest⟩] r sh
      = .error .emptyRange := by
  rfl

/-- C5: when model.fit raises, the module-level except block saves the model
under the _err-tagged filename, writes the exception message to the error
text file, and prints a failure message distinct from the success message,
so the run does not finish silently as if successful. -/
theorem c5_error_path_persists_and_reports (date elapsed e : String) :
    trainingScript date elapsed (.error e)
      = [ .saveModel ("model" ++ date ++ "_err.h5"),
          .writeFile ("err" ++ date ++ ".txt") e,
          .printMsg "Exited with error." ]
    ∧ ("Exited with error." == "Succesfully finished.") = false := by
  exact ⟨rfl, rfl⟩

/-- C6 (counterexample): constructing the Style2Vec wrapper with the
unsupported encoder selector "resnet" raises no error at all: the wrapper
never checks its underlying_model argument and builds its internal generator
with the default "inception" instead. -/
theorem c6_wrapper_ignores_selector :
    (Style2Vec.init "d" "i" 10 1 "resnet" (-1) (-1) false ⟨[], []⟩).isOk = true := by
  rfl

/-- C6 (amended): the SamplesGenerator constructor rejects every encoder
selector other than "inception" with the configuration ValueError, before any
file I/O (loading happens only in the later collect_data call); the Style2Vec
wrapper, however, ignores its own encoder selector argument and always
constructs successfully. -/
theorem c6_generator_fail_fast_wrapper_no_check (d i m : String) (ns bs be ec : Nat)
    (oc sc : Int) (ft : Bool) (tw : Towers) (hm : m ≠ "inception") :
    SamplesGenerator.init d i ns bs m oc sc = .error .invalidModel
    ∧ (Style2Vec.init d i be ec m oc sc ft tw).isOk = true := by
  refine ⟨?_, rfl⟩
  simp [SamplesGenerator.init, hm]

/-- C6 witness at a concrete unsupported selector. -/
theorem c6_generator_fail_fast_wrapper_no_check_witness :
    SamplesGenerator.init "d" "i" 5 10 "resnet" (-1) (-1) = .error .invalidModel
    ∧ (Style2Vec.init "d" "i" 10 1 "resnet" (-1) (-1) false ⟨[], []⟩).isOk = true :=
  c6_generator_fail_fast_wrapper_no_check "d" "i" "resnet" 5 10 10 1 (-1) (-1) false
    ⟨[], []⟩ (by decide)

/-- C3: for every outfit of the dataset (under the dataset invariants: the
items of the dataset are pairwise distinct records, so each item belongs to
exactly one outfit), every successful run of generate_samples without sample
truncation produces exactly N * (N - 1) positive samples whose target item
belongs to that outfit (N its item count), and exactly negSampleCount * N
negative samples whose target item belongs to that outfit, for every random
stream, retry budget and shuffle permutation. -/
theorem c3_per_outfit_sample_counts (fuel negCount batch_size : Nat) (data : List Outfit)
    (outfit : Outfit) (r : Rng) (sh : List Sample → List Sample) (L : List Sample)
    (steps : Nat) (hsh : ∀ l, (sh l).Perm l) (hmem : outfit ∈ data)
    (hnd : (allItems data).Nodup)
    (hok : generate_samples fuel negCount batch_size (-1) data r sh = .ok (L, steps)) :
    L.countP (isPosOf outfit) = outfit.Items.length * (outfit.Items.length - 1)
    ∧ L.countP (isNegOf outfit) = negCount * outfit.Items.length := by
  obtain ⟨raw, rr, h1, hL⟩ := generate_samples_ok _ _ _ _ _ _ _ _ _ hok
  have hLraw : L = sh raw := by
    rw [hL, if_neg]
    intro hcon
    exact hcon.1 rfl
  obtain ⟨pre, post, hdata⟩ := List.append_of_mem hmem
  rw [hdata] at h1 hnd
  obtain ⟨l1, rm, l23, hpre, hrest, hsplit⟩ := outfitsLoop_append _ _ _ _ _ _ _ _ h1
  rw [outfitsLoop] at hrest
  split at hrest
  · exact absurd hrest (by simp)
  next lo ro h4 =>
    split at hrest
    · exact absurd hrest (by simp)
    next lp rp h5 =>
      cases hrest
      rw [allItems_append] at hnd
      rw [List.nodup_append] at hnd
      obtain ⟨hndpre, hndmid, hdisj⟩ := hnd
      rw [allItems] at hndmid
      have hdisjmid := hndmid
      rw [List.nodup_append] at hndmid
      obtain ⟨hndo, hndpost, hdisj2⟩ := hndmid
      have hcounts := itemsLoop_counts _ negCount _ outfit hndo outfit.Items _ _ _ h4
        (fun x hx => hx)
      have htpre := outfitsLoop_targets _ _ _ _ _ _ _ hpre
      have htpost := outfitsLoop_targets _ _ _ _ _ _ _ h5
      have hmemmid : ∀ x : Item, x ∈ outfit.Items → x ∈ allItems (outfit :: post) := by
        intro x hx
        rw [allItems]
        exact List.mem_append.mpr (Or.inl hx)
      have hz1p : l1.countP (isPosOf outfit) = 0 := by
        rw [List.countP_eq_zero]
        intro s hs hps
        simp only [isPosOf, Bool.and_eq_true, beq_iff_eq] at hps
        have hso : s.1.1 ∈ outfit.Items := by
          have := hps.2
          simpa using this
        exact hdisj (htpre s hs) (hmemmid _ hso)
      have hz1n : l1.countP (isNegOf outfit) = 0 := by
        rw [List.countP_eq_zero]
        intro s hs hps
        simp only [isNegOf, Bool.and_eq_true, beq_iff_eq] at hps
        have hso : s.1.1 ∈ outfit.Items := by
          have := hps.2
          simpa using this
        exact hdisj (htpre s hs) (hmemmid _ hso)
      have hzpp : lp.countP (isPosOf outfit) = 0 := by
        rw [List.countP_eq_zero]
        intro s hs hps
        simp only [isPosOf, Bool.and_eq_true, beq_iff_eq] at hps
        have hso : s.1.1 ∈ outfit.Items := by
          have := hps.2
          simpa using this
        exact hdisj2 hso (htpost s hs)
      have hzpn : lp.countP (isNegOf outfit) = 0 := by
        rw [List.countP_eq_zero]
        intro s hs hps
        simp only [isNegOf, Bool.and_eq_true, beq_iff_eq] at hps
        have hso : s.1.1 ∈ outfit.Items := by
          have := hps.2
          simpa using this
        exact hdisj2 hso (htpost s hs)
      constructor
      · rw [hLraw, (hsh raw).countP_eq, hsplit, List.countP_append, List.countP_append,
          hz1p, hzpp, hcounts.1]
        ring
      · rw [hLraw, (hsh raw).countP_eq, hsplit, List.countP_append, List.countP_append,
          hz1n, hzpn, hcounts.2]
        ring

/-- C3 witness: two outfits with SetIds 1 and 2; outfit 1 has the two items
10 and 11, so it contributes 2 * 1 = 2 positives and 1 * 2 = 2 negatives
among the five generated samples. -/
theorem c3_per_outfit_sample_counts_witness :
    ([((10, 11), 1), ((10, 10), 0), ((11, 10), 1), ((11, 10), 0),
        ((20, 10), 0)] : List Sample).countP (isPosOf ⟨1, [10, 11]⟩)
      = (Outfit.mk 1 [10, 11]).Items.length * ((Outfit.mk 1 [10, 11]).Items.length - 1)
    ∧ ([((10, 11), 1), ((10, 10), 0), ((11, 10), 1), ((11, 10), 0),
        ((20, 10), 0)] : List Sample).countP (isNegOf ⟨1, [10, 11]⟩)
      = 1 * (Outfit.mk 1 [10, 11]).Items.length :=
  c3_per_outfit_sample_counts 1 1 10 [⟨1, [10, 11]⟩, ⟨2, [20]⟩] ⟨1, [10, 11]⟩
    ⟨fun _ => 0, 0⟩ id
    [((10, 11), 1), ((10, 10), 0), ((11, 10), 1), ((11, 10), 0), ((20, 10), 0)] 0
    (fun l => List.Perm.refl l) (by decide) (by decide) (by rfl)

/-- C9: in every successful run of generate_samples, the context item of
every negative sample belongs to one of the outfits before the last one
(line 71 draws the negative outfit index from randrange(len(data) - 1), so
index len(data) - 1 is never drawn), and hence - items belonging to exactly
one outfit - no item of the last outfit of the (possibly truncated) dataset
ever appears as a negative context. -/
theorem c9_negative_context_not_from_last_outfit (fuel negCount batch_size : Nat)
    (lim : Int) (data : List Outfit) (r : Rng) (sh : List Sample → List Sample)
    (L : List Sample) (steps : Nat) (hsh : ∀ l, (sh l).Perm l) (hne : data ≠ [])
    (hnd : (allItems data).Nodup)
    (hok : generate_samples fuel negCount batch_size lim data r sh = .ok (L, steps))
    (t c : Item) (hmem : ((t, c), 0) ∈ L) :
    c ∈ allItems data.dropLast ∧ c ∉ (data.getLastD default).Items := by
  obtain ⟨raw, rr, h1, hL⟩ := generate_samples_ok _ _ _ _ _ _ _ _ _ hok
  have hmemsh : ((t, c), 0) ∈ sh raw := by
    rw [hL] at hmem
    by_cases hc : lim ≠ -1 ∧ lim < ((sh raw).length : Int)
    · rw [if_pos hc] at hmem
      exact pySliceTo_subset _ _ _ hmem
    · rw [if_neg hc] at hmem
      exact hmem
  have hmemraw : ((t, c), 0) ∈ raw := (hsh raw).mem_iff.mp hmemsh
  have hctx : c ∈ allItems data.dropLast :=
    outfitsLoop_negContext _ _ _ _ _ _ _ h1 ((t, c), 0) hmemraw rfl
  refine ⟨hctx, ?_⟩
  intro hcl
  have hsplit : data.dropLast ++ [data.getLastD default] = data :=
    dropLast_append_getLastD data hne
  rw [← hsplit, allItems_append, List.nodup_append] at hnd
  obtain ⟨_, _, hdisj⟩ := hnd
  refine hdisj hctx ?_
  rw [allItems]
  exact List.mem_append.mpr (Or.inl hcl)

/-- C9 witness: in the two-outfit dataset with SetIds 1 and 2, the item 10
appears as a negative context; it belongs to the non-final outfit and not to
the last outfit. -/
theorem c9_negative_context_not_from_last_outfit_witness :
    (10 : Item) ∈ allItems ([⟨1, [10, 11]⟩, ⟨2, [20]⟩] : List Outfit).dropLast
    ∧ (10 : Item) ∉ (([⟨1, [10, 11]⟩, ⟨2, [20]⟩] : List Outfit).getLastD default).Items :=
  c9_negative_context_not_from_last_outfit 1 1 10 (-1) [⟨1, [10, 11]⟩, ⟨2, [20]⟩]
    ⟨fun _ => 0, 0⟩ id
    [((10, 11), 1), ((10, 10), 0), ((11, 10), 1), ((11, 10), 0), ((20, 10), 0)] 0
    (fun l => List.Perm.refl l) (by decide) (by decide) (by rfl) 10 10 (by decide)

/-- C7: with the fine-tune flag enabled, the layer at position i of a tower
becomes trainable exactly when 249 ≤ i (the first 249 layers are frozen, all
later layers trainable), the tower keeps its length, and the block is
applied identically to the target tower and the context tower; with the flag
disabled the block is skipped and both towers keep every construction-time
trainable flag unchanged. -/
theorem c7_fine_tune_layer_policy (ls : List Layer) (t : Towers) (i : Nat)
    (h : i < ls.length) :
    ((applyFineTune ls).getD i default).trainable = decide (249 ≤ i)
    ∧ (applyFineTune ls).length = ls.length
    ∧ fineTuneStep true t
        = { model_target := applyFineTune t.model_target
            model_context := applyFineTune t.model_context }
    ∧ fineTuneStep false t = t := by
  have hlen : (applyFineTune ls).length = ls.length := by
    simp [applyFineTune]; omega
  refine ⟨?_, hlen, rfl, rfl⟩
  rw [List.getD_eq_getElem _ _ (by omega)]
  unfold applyFineTune
  by_cases hc : i < 249
  · rw [List.getElem_append_left (by simp; omega)]
    simp [hc]
  · rw [List.getElem_append_right (by simp; omega)]
    simp
    omega

/-- C7 witness on a 250-layer tower, at the boundary index 249. -/
theorem c7_fine_tune_layer_policy_witness :
    ((applyFineTune (List.replicate 250 ⟨"layer", false⟩)).getD 249 default).trainable
      = decide (249 ≤ 249)
    ∧ (applyFineTune (List.replicate 250 ⟨"layer", false⟩)).length
      = (List.replicate 250 (⟨"layer", false⟩ : Layer)).length
    ∧ fineTuneStep true ⟨[⟨"a", true⟩], [⟨"b", false⟩]⟩
        = { model_target := applyFineTune [⟨"a", true⟩]
            model_context := applyFineTune [⟨"b", false⟩] }
    ∧ fineTuneStep false ⟨[⟨"a", true⟩], [⟨"b", false⟩]⟩ = ⟨[⟨"a", true⟩], [⟨"b", false⟩]⟩ :=
  c7_fine_tune_layer_policy (List.replicate 250 ⟨"layer", false⟩)
    ⟨[⟨"a", true⟩], [⟨"b", false⟩]⟩ 249 (by rw [List.length_replicate]; omega)

/-- C8: with a non-negative cap K strictly below the outfit count the loaded
dataset is truncated to exactly its first K outfits in order; with the cap
unset (-1), or at least the outfit count, the dataset is unchanged. -/
theorem c8_outfit_count_cap (K K' : Int) (loaded : List Outfit) (h0 : 0 ≤ K)
    (hK : K < (loaded.length : Int)) (hK' : (loaded.length : Int) ≤ K') :
    collect_data K loaded = loaded.take K.toNat
    ∧ (collect_data K loaded).length = K.toNat
    ∧ collect_data (-1) loaded = loaded
    ∧ collect_data K' loaded = loaded := by
  have hKne : K ≠ -1 := by omega
  refine ⟨?_, ?_, ?_, ?_⟩
  · simp [collect_data, hKne, hK, pySliceTo, h0]
  · simp [collect_data, hKne, hK, pySliceTo, h0]
    omega
  · simp [collect_data]
  · simp [collect_data]
    intro _
    omega

/-- C8 witness: cap 2 on a three-outfit dataset keeps the first two outfits;
cap -1 and cap 5 leave it unchanged. -/
theorem c8_outfit_count_cap_witness :
    collect_data 2 [⟨1, [10]⟩, ⟨2, [20]⟩, ⟨3, [30]⟩]
      = ([⟨1, [10]⟩, ⟨2, [20]⟩, ⟨3, [30]⟩] : List Outfit).take (2 : Int).toNat
    ∧ (collect_data 2 [⟨1, [10]⟩, ⟨2, [20]⟩, ⟨3, [30]⟩]).length = (2 : Int).toNat
    ∧ collect_data (-1) [⟨1, [10]⟩, ⟨2, [20]⟩, ⟨3, [30]⟩]
      = [⟨1, [10]⟩, ⟨2, [20]⟩, ⟨3, [30]⟩]
    ∧ collect_data 5 [⟨1, [10]⟩, ⟨2, [20]⟩, ⟨3, [30]⟩]
      = [⟨1, [10]⟩, ⟨2, [20]⟩, ⟨3, [30]⟩] :=
  c8_outfit_count_cap 2 5 [⟨1, [10]⟩, ⟨2, [20]⟩, ⟨3, [30]⟩] (by decide) (by decide) (by decide)

/-- C10: over any generated sample list, the samples that reach some yielded
batch of one epoch pass are exactly those of the drop pattern: b consecutive
samples are batched, then the sample triggering the full-batch yield is
discarded, and so on; consequently, whenever the list is longer than the
batch size (so at least one full-batch yield fires), the yielded batches
lose at least one sample and do not partition the sample list. -/
theorem c10_full_batch_drops_trigger_sample (b : Nat) (s : List Sample) :
    (epochBatches b s).flatten = dropPattern b 0 s
    ∧ (b < s.length → (epochBatches b s).flatten.length < s.length) := by
  have hjoin : (epochBatches b s).flatten = dropPattern b 0 s := by
    rw [epochBatches, batchStep_join b s [] 0 (fun _ => rfl)]
    simp
  refine ⟨hjoin, fun hbs => ?_⟩
  rw [hjoin]
  exact dropPattern_length_lt b s 0 (Nat.zero_le b) (by omega)

/-- C10 witness: with batch size 1 and three samples, the pass yields batches
covering only two samples, strictly fewer than the three generated. -/
theorem c10_full_batch_drops_trigger_sample_witness :
    (epochBatches 1 [((1, 2), 1), ((2, 1), 1), ((1, 2), 0)]).flatten.length
      < ([((1, 2), 1), ((2, 1), 1), ((1, 2), 0)] : List Sample).length :=
  (c10_full_batch_drops_trigger_sample 1 [((1, 2), 1), ((2, 1), 1), ((1, 2), 0)]).2
    (by decide)

end Style2VecBeta
